import Mathlib

/-!
Verification of the HotelReviews HTTP service (src/main.py) against its
specification.  The service is a CRUD layer over two MongoDB collections,
hotels and reviews.  We shallowly embed the request handlers as pure
functions over an explicit store state.  The MongoDB store is external to
the repository; per the spec it is treated as an opaque store with
find / find-one / insert-one / update-one / delete-one / delete-many
semantics, which we model over ordered lists of documents (a document is
a store id plus an association list of fields).  JSON values carry exact
rationals for numbers: the ratings handled by the service are small
integers divided by small counts, for which Python float arithmetic and
the embedding's exact rational arithmetic round identically.
-/

/-- A JSON-ish value as stored in a document.  `oidv` is a BSON ObjectId
value (the server writes one into the `hotel_id` field of a review); it is
distinct from any string, as in BSON. -/
inductive Value where
  | null : Value
  | bool : Bool → Value
  | num : Rat → Value
  | str : String → Value
  | oidv : String → Value
deriving DecidableEq

/-- A document body: an association list from field names to values
(first occurrence wins, mirroring a Python dict with unique keys). -/
abbrev Doc := List (String × Value)

/-- First value bound to a key, like Python dict access. -/
def lookupF (d : Doc) (k : String) : Option Value :=
  match d.find? (fun p => decide (p.1 = k)) with
  | some p => some p.2
  | none => none

/-- Set a key to a value, replacing an existing binding (Python dict
assignment, also MongoDB `$set` on one field). -/
def setField (d : Doc) (k : String) (v : Value) : Doc :=
  if d.any (fun p => decide (p.1 = k)) then
    d.map (fun p => if p.1 = k then (k, v) else p)
  else
    d ++ [(k, v)]

/-- MongoDB `$set` with update document `data`: every field of `data` is
written into `d`. -/
def applySet (d : Doc) (data : Doc) : Doc :=
  data.foldl (fun acc kv => setField acc kv.1 kv.2) d

/-- A stored document: the store-assigned `_id` (kept in canonical
lowercase-hex string form) plus the remaining fields. -/
structure StoredDoc where
  oid : String
  fields : Doc
deriving DecidableEq

/-- The whole store state: the two collections used by the service. -/
structure DB where
  hotels : List StoredDoc
  reviews : List StoredDoc
deriving DecidableEq

/-- Outcome of one handler invocation: a JSON success payload with an HTTP
status, an error object with a status, or an unhandled Python exception
(which Tornado turns into a 500-class response). -/
inductive Resp (α : Type) where
  | ok : Nat → α → Resp α
  | err : Nat → String → Resp α
  | crash : Resp α
deriving DecidableEq

/-- HTTP status of a response; `none` for an unhandled exception. -/
def Resp.status {α : Type} : Resp α → Option Nat
  | .ok s _ => some s
  | .err s _ => some s
  | .crash => none

/-! ### Validation utilities (src/main.py lines 27-40) -/

/-- A hexadecimal digit, either case. -/
def isHexChar (c : Char) : Bool :=
  c.isDigit || (decide ('a' ≤ c) && decide (c ≤ 'f')) || (decide ('A' ≤ c) && decide (c ≤ 'F'))

/-- `bson.ObjectId.is_valid` on a string: 24 hexadecimal characters. -/
def isValidObjectId (s : String) : Bool :=
  decide (s.length = 24) && s.toList.all isHexChar

/-- `ObjectId(s)`: the canonical form of a valid id string; BSON compares
ObjectIds by their bytes, so hex case is ignored — we canonicalise to
lowercase, which is also what `str(ObjectId(s))` prints. -/
def objIdOf (s : String) : String :=
  ⟨s.data.map Char.toLower⟩

/-- `validate_phone`: Python `re.match` of `^\+?\d{6,15}$` — an optional
leading plus then 6 to 15 digits, anchored at both ends. -/
def validate_phone (s : String) : Bool :=
  match s.toList with
  | '+' :: ds => ds.all Char.isDigit && decide (6 ≤ ds.length) && decide (ds.length ≤ 15)
  | ds => ds.all Char.isDigit && decide (6 ≤ ds.length) && decide (ds.length ≤ 15)

/-- Does `pat` occur at the start of `l`? -/
def startsWithL : List Char → List Char → Bool
  | [], _ => true
  | _ :: _, [] => false
  | a :: as, b :: bs => decide (a = b) && startsWithL as bs

/-- Does `pat` occur as a contiguous run anywhere in `l`? -/
def containsSub (pat : List Char) : List Char → Bool
  | [] => pat.isEmpty
  | c :: ts => startsWithL pat (c :: ts) || containsSub pat ts

/-- Scanning the region after the first at-sign and one consumed domain
character: is there a dot, preceded only by non-at characters, followed by
a non-at character?  This is the backtracking search the regex engine
performs for the suffix of the email pattern. -/
def findDot : List Char → Bool
  | [] => false
  | c :: rest =>
    if c = '@' then false
    else if c = '.' then
      match rest with
      | [] => false
      | d :: _ => decide (d ≠ '@') || findDot rest
    else findDot rest

/-- Match of the regex fragment after the at-sign against a prefix of `l`:
at least one non-at character, a dot, at least one non-at character. -/
def tailMatch : List Char → Bool
  | [] => false
  | c :: rest => decide (c ≠ '@') && findDot rest

/-- After at least one local-part character: skip further non-at
characters to the first at-sign, then match the domain fragment. -/
def afterLocal : List Char → Bool
  | [] => false
  | c :: rest => if c = '@' then tailMatch rest else afterLocal rest

/-- `validate_email`: Python `re.match` of the unanchored pattern
`[^@]+@[^@]+\.[^@]+` — a nonempty at-free run, the first at-sign, a
nonempty at-free run, a dot, then at least one non-at character; trailing
characters are unconstrained because `re.match` only anchors the start. -/
def validate_email (s : String) : Bool :=
  match s.toList with
  | [] => false
  | c :: rest => if c = '@' then false else afterLocal rest

/-! ### Normalisation and rating arithmetic (src/main.py lines 34-40, 84-89) -/

/-- `normalize`: expose the store id as a public string field `id`
(the `_id` key lives outside `fields` in this embedding, so only the
`id` assignment is visible). -/
def normalizeDoc (d : StoredDoc) : Doc :=
  setField d.fields "id" (Value.str d.oid)

/-- A value as a Python number where Python arithmetic would accept it:
numbers are themselves, booleans coerce to 0 and 1, everything else
raises `TypeError`. -/
def numVal : Value → Option Rat
  | Value.num q => some q
  | Value.bool b => some (if b then 1 else 0)
  | _ => none

/-- Evaluation of the chained comparison `1 <= v <= 5`; `none` when the
comparison raises `TypeError` (non-numeric value). -/
def ratingInRange : Value → Option Bool
  | Value.num q => some (decide (1 ≤ q) && decide (q ≤ 5))
  | Value.bool b => some b
  | _ => none

/-- Python `round` on an exact rational: nearest integer, ties to even. -/
def pythonRound (q : Rat) : Int :=
  let f : Int := q.floor
  let r : Rat := q - (f : Rat)
  if r < 1/2 then f
  else if 1/2 < r then f + 1
  else if f % 2 = 0 then f else f + 1

/-- The number `r["rating"]` of a stored review, when present and numeric;
`none` models the `KeyError` / `TypeError` the summation would raise. -/
def reviewRating (r : StoredDoc) : Option Rat :=
  match lookupF r.fields "rating" with
  | some v => numVal v
  | none => none

/-- All ratings of a review list, or `none` if any is missing or
non-numeric. -/
def ratingVals : List StoredDoc → Option (List Rat)
  | [] => some []
  | r :: rs =>
    match reviewRating r, ratingVals rs with
    | some q, some qs => some (q :: qs)
    | _, _ => none

/-- The `avg_rating` computation: `round(sum(ratings) / len(reviews))`
when there is at least one review, `None` otherwise. -/
def avgOf (rs : List Rat) : Option Int :=
  if rs.length = 0 then none
  else some (pythonRound (rs.sum / (rs.length : Rat)))

/-- The reviews of one hotel: `reviews.find({"hotel_id": ObjectId(...)})`. -/
def hotelReviews (db : DB) (oid : String) : List StoredDoc :=
  db.reviews.filter (fun r => decide (lookupF r.fields "hotel_id" = some (Value.oidv oid)))

/-- The serialised hotel produced by both read paths of `HotelHandler.get`:
normalised hotel document, embedded normalised reviews, computed
`avg_rating`. -/
structure HotelView where
  doc : Doc
  reviews : List Doc
  avg_rating : Option Int
deriving DecidableEq

/-- Build the read view of one hotel; `none` when summing the ratings
raises (a review without a numeric `rating` field). -/
def hotelView (db : DB) (h : StoredDoc) : Option HotelView :=
  let revs := hotelReviews db h.oid
  match ratingVals revs with
  | none => none
  | some rs => some ⟨normalizeDoc h, revs.map normalizeDoc, avgOf rs⟩

/-- Views of a hotel list, `none` as soon as one crashes. -/
def traverseViews (db : DB) : List StoredDoc → Option (List HotelView)
  | [] => some []
  | h :: hs =>
    match hotelView db h, traverseViews db hs with
    | some v, some vs => some (v :: vs)
    | _, _ => none

/-- Payload of `GET /hotels`. -/
structure HotelsList where
  count : Nat
  hotels : List HotelView
deriving DecidableEq

/-- Payload of `GET /hotels/.../reviews`. -/
structure ReviewsList where
  count : Nat
  reviews : List Doc
deriving DecidableEq

/-! ### Field checks shared by the handlers -/

/-- Outcome of one conditional validation step. -/
inductive VCheck where
  | ok : VCheck
  | bad : String → VCheck
  | crash : VCheck
deriving DecidableEq

/-- The `if key in data and not validator(data[key])` pattern used for
`email` / `phone` / `user`: absent is fine, a failing string yields the
given 400 message, and a non-string makes `re.match` raise `TypeError`. -/
def checkOptStrField (data : Doc) (k : String) (validator : String → Bool) (msg : String) : VCheck :=
  match lookupF data k with
  | none => VCheck.ok
  | some (Value.str s) => if validator s then VCheck.ok else VCheck.bad msg
  | some _ => VCheck.crash

/-- The `if "rating" in data and not (1 <= data["rating"] <= 5)` pattern. -/
def checkOptRating (data : Doc) (msg : String) : VCheck :=
  match lookupF data "rating" with
  | none => VCheck.ok
  | some v =>
    match ratingInRange v with
    | none => VCheck.crash
    | some true => VCheck.ok
    | some false => VCheck.bad msg

/-- `update_one` with filter `p` and `$set` document `data`: rewrite the
fields of the first matching document, leave the rest untouched. -/
def updateFirst (p : StoredDoc → Bool) (data : Doc) : List StoredDoc → List StoredDoc
  | [] => []
  | h :: hs => if p h then ⟨h.oid, applySet h.fields data⟩ :: hs else h :: updateFirst p data hs

/-- Modelled from the spec: MongoDB regex matching with option `i`
(external to the repository).  On a metacharacter-free pattern — the only
shape the spec discusses — it is case-insensitive substring containment. -/
def ciSubstrMatch (pat s : String) : Bool :=
  containsSub (pat.data.map Char.toLower) (s.data.map Char.toLower)

/-- One optional list filter of `GET /hotels`: absent (or empty, which
Python treats as falsy) imposes nothing, otherwise the named field must
be a string matching the pattern case-insensitively. -/
def fieldFilterOk (fieldName : String) (filt : Option String) (h : StoredDoc) : Bool :=
  match filt with
  | none => true
  | some pat =>
    if pat.isEmpty then true
    else
      match lookupF h.fields fieldName with
      | some (Value.str s) => ciSubstrMatch pat s
      | _ => false

/-!
### HotelHandler (src/main.py lines 46-232)

Each handler is a function from the store state and the request data to a
response and the new store state.  `GET` handlers do not mutate and return
the state unchanged.  A body that failed JSON parsing is `none`; a parsed
body is a `Doc`.  Where the store assigns a fresh id on insert it is
passed in as `newOid`.
-/

namespace HotelHandler

/-- `GET /hotels/(id)` branch of `HotelHandler.get` (lines 62-91). -/
def getById (db : DB) (hotel_id : String) : Resp HotelView × DB :=
  if isValidObjectId hotel_id then
    match db.hotels.find? (fun h => decide (h.oid = objIdOf hotel_id)) with
    | none => (Resp.err 404 "Hotel non trovato", db)
    | some h =>
      match hotelView db h with
      | none => (Resp.crash, db)
      | some v => (Resp.ok 200 v, db)
  else (Resp.err 400 "ID hotel non valido", db)

/-- `GET /hotels` branch of `HotelHandler.get` (lines 96-134): filter by
`city` / `name` in the store query, build each view, then post-filter on
the computed `avg_rating`. -/
def getList (db : DB) (city name : Option String) (rating : Option Int) : Resp HotelsList × DB :=
  let selected := db.hotels.filter
    (fun h => fieldFilterOk "city" city h && fieldFilterOk "name" name h)
  match traverseViews db selected with
  | none => (Resp.crash, db)
  | some views =>
    let views2 :=
      match rating with
      | none => views
      | some rr => views.filter (fun v => decide (v.avg_rating = some rr))
    (Resp.ok 200 ⟨views2.length, views2⟩, db)

/-- `POST /hotels` (lines 137-170). -/
def post (db : DB) (body : Option Doc) (newOid : String) : Resp Doc × DB :=
  match body with
  | none => (Resp.err 400 "JSON non valido", db)
  | some data =>
    if (lookupF data "name").isNone then
      (Resp.err 400 "Manca campo obbligatorio: name", db)
    else if (lookupF data "city").isNone then
      (Resp.err 400 "Manca campo obbligatorio: city", db)
    else if (lookupF data "phone").isNone then
      (Resp.err 400 "Manca campo obbligatorio: phone", db)
    else if (lookupF data "email").isNone then
      (Resp.err 400 "Manca campo obbligatorio: email", db)
    else
      match checkOptStrField data "email" validate_email "Email non valida" with
      | VCheck.bad m => (Resp.err 400 m, db)
      | VCheck.crash => (Resp.crash, db)
      | VCheck.ok =>
        match checkOptStrField data "phone" validate_phone "Telefono non valido" with
        | VCheck.bad m => (Resp.err 400 m, db)
        | VCheck.crash => (Resp.crash, db)
        | VCheck.ok =>
          (Resp.ok 201 (normalizeDoc ⟨newOid, data⟩),
           { db with hotels := db.hotels ++ [⟨newOid, data⟩] })

/-- `PUT /hotels/(id)` (lines 173-215): validate, partial-merge the first
matching hotel, 404 when none matched, then unconditionally delete every
review of the hotel and return the re-fetched document. -/
def put (db : DB) (hotel_id : String) (body : Option Doc) : Resp Doc × DB :=
  if isValidObjectId hotel_id then
    match body with
    | none => (Resp.err 400 "JSON non valido", db)
    | some data =>
      match checkOptStrField data "email" validate_email "Email non valida" with
      | VCheck.bad m => (Resp.err 400 m, db)
      | VCheck.crash => (Resp.crash, db)
      | VCheck.ok =>
        match checkOptStrField data "phone" validate_phone "Telefono non valido" with
        | VCheck.bad m => (Resp.err 400 m, db)
        | VCheck.crash => (Resp.crash, db)
        | VCheck.ok =>
          if db.hotels.any (fun h => decide (h.oid = objIdOf hotel_id)) then
            let hotels2 := updateFirst
              (fun h => decide (h.oid = objIdOf hotel_id)) data db.hotels
            let reviews2 := db.reviews.filter
              (fun r => decide (lookupF r.fields "hotel_id" ≠ some (Value.oidv (objIdOf hotel_id))))
            match hotels2.find? (fun h => decide (h.oid = objIdOf hotel_id)) with
            | some h2 => (Resp.ok 200 (normalizeDoc h2), ⟨hotels2, reviews2⟩)
            | none => (Resp.crash, ⟨hotels2, reviews2⟩)
          else (Resp.err 404 "Hotel non trovato", db)
  else (Resp.err 400 "ID non valido", db)

/-- `DELETE /hotels/(id)` (lines 218-232): delete the first matching
hotel if any, delete every review of the hotel, always succeed. -/
def delete (db : DB) (hotel_id : String) : Resp String × DB :=
  if isValidObjectId hotel_id then
    (Resp.ok 200 "Hotel e recensioni eliminati",
     ⟨db.hotels.eraseP (fun h => decide (h.oid = objIdOf hotel_id)),
      db.reviews.filter
        (fun r => decide (lookupF r.fields "hotel_id" ≠ some (Value.oidv (objIdOf hotel_id))))⟩)
  else (Resp.err 400 "ID non valido", db)

end HotelHandler

/-!
### HotelReviewsHandler (src/main.py lines 238-391)
-/

namespace HotelReviewsHandler

/-- The pair filter used by review fetch / update / delete:
documents matching both the review id and the hotel id of the path. -/
def pairPred (hotel_id review_id : String) (r : StoredDoc) : Bool :=
  decide (r.oid = objIdOf review_id) &&
  decide (lookupF r.fields "hotel_id" = some (Value.oidv (objIdOf hotel_id)))

/-- `GET /hotels/(id)/reviews/(rid)` branch of `HotelReviewsHandler.get`
(lines 259-273). -/
def getById (db : DB) (hotel_id review_id : String) : Resp Doc × DB :=
  if isValidObjectId hotel_id then
    if isValidObjectId review_id then
      match db.reviews.find? (pairPred hotel_id review_id) with
      | none => (Resp.err 404 "Recensione non trovata", db)
      | some r => (Resp.ok 200 (normalizeDoc r), db)
    else (Resp.err 400 "Review ID non valido", db)
  else (Resp.err 400 "Hotel ID non valido", db)

/-- `GET /hotels/(id)/reviews` branch of `HotelReviewsHandler.get`
(lines 276-281). -/
def getList (db : DB) (hotel_id : String) : Resp ReviewsList × DB :=
  if isValidObjectId hotel_id then
    let revs := (hotelReviews db (objIdOf hotel_id)).map normalizeDoc
    (Resp.ok 200 ⟨revs.length, revs⟩, db)
  else (Resp.err 400 "Hotel ID non valido", db)

/-- `POST /hotels/(id)/reviews` (lines 284-331): check the hotel exists,
validate `user` and `rating`, then insert with `hotel_id` taken from the
path (overriding any client-supplied value). -/
def post (db : DB) (hotel_id : String) (body : Option Doc) (newOid : String) : Resp Doc × DB :=
  if isValidObjectId hotel_id then
    if db.hotels.any (fun h => decide (h.oid = objIdOf hotel_id)) then
      match body with
      | none => (Resp.err 400 "JSON non valido", db)
      | some data =>
        if (lookupF data "user").isNone then
          (Resp.err 400 "Campo mancante: user", db)
        else if (lookupF data "rating").isNone then
          (Resp.err 400 "Campo mancante: rating", db)
        else
          match checkOptStrField data "user" validate_email "Email non valida" with
          | VCheck.bad m => (Resp.err 400 m, db)
          | VCheck.crash => (Resp.crash, db)
          | VCheck.ok =>
            match checkOptRating data "Rating deve essere tra 1 e 5" with
            | VCheck.bad m => (Resp.err 400 m, db)
            | VCheck.crash => (Resp.crash, db)
            | VCheck.ok =>
              let data2 := setField data "hotel_id" (Value.oidv (objIdOf hotel_id))
              (Resp.ok 201 (normalizeDoc ⟨newOid, data2⟩),
               { db with reviews := db.reviews ++ [⟨newOid, data2⟩] })
    else (Resp.err 404 "Hotel non trovato", db)
  else (Resp.err 400 "Hotel ID non valido", db)

/-- `PUT /hotels/(id)/reviews/(rid)` (lines 334-371): validate both ids
and the optional `user` / `rating` fields, partial-merge the first
document matching the (review id, hotel id) pair, 404 when none matched,
then return the document re-fetched by review id alone. -/
def put (db : DB) (hotel_id review_id : String) (body : Option Doc) : Resp Doc × DB :=
  if isValidObjectId hotel_id && isValidObjectId review_id then
    match body with
    | none => (Resp.err 400 "JSON non valido", db)
    | some data =>
      match checkOptStrField data "user" validate_email "Email non valida" with
      | VCheck.bad m => (Resp.err 400 m, db)
      | VCheck.crash => (Resp.crash, db)
      | VCheck.ok =>
        match checkOptRating data "Rating non valido" with
        | VCheck.bad m => (Resp.err 400 m, db)
        | VCheck.crash => (Resp.crash, db)
        | VCheck.ok =>
          if db.reviews.any (pairPred hotel_id review_id) then
            let reviews2 := updateFirst (pairPred hotel_id review_id) data db.reviews
            match reviews2.find? (fun r => decide (r.oid = objIdOf review_id)) with
            | some r2 => (Resp.ok 200 (normalizeDoc r2), { db with reviews := reviews2 })
            | none => (Resp.crash, { db with reviews := reviews2 })
          else (Resp.err 404 "Recensione non trovata", db)
  else (Resp.err 400 "ID non valido", db)

/-- `DELETE /hotels/(id)/reviews/(rid)` (lines 374-391): delete the first
document matching the pair; 404 when nothing was deleted. -/
def delete (db : DB) (hotel_id review_id : String) : Resp String × DB :=
  if isValidObjectId hotel_id && isValidObjectId review_id then
    if db.reviews.any (pairPred hotel_id review_id) then
      (Resp.ok 200 "Recensione eliminata",
       { db with reviews := db.reviews.eraseP (pairPred hotel_id review_id) })
    else (Resp.err 404 "Recensione non trovata", db)
  else (Resp.err 400 "ID non valido", db)

end HotelReviewsHandler

/-! ### General lemmas -/

/-- The Batteries floor on `Rat` is the Mathlib floor. -/
theorem ratFloor_eq_floor (q : Rat) : q.floor = ⌊q⌋ := rfl

/-- `pythonRound` returns a nearest integer: it never strays more than
one half from its argument. -/
theorem pythonRound_nearest (q : Rat) : |((pythonRound q : Int) : Rat) - q| ≤ 1/2 := by
  have h1 : ((⌊q⌋ : Int) : Rat) ≤ q := Int.floor_le q
  have h2 : q < ((⌊q⌋ : Int) : Rat) + 1 := Int.lt_floor_add_one q
  simp only [pythonRound, ratFloor_eq_floor]
  rw [abs_le]
  split_ifs with ha hb hc
  · constructor <;> linarith
  · push_cast
    constructor <;> linarith
  · constructor <;> linarith
  · push_cast
    constructor <;> linarith

/-- Every view in a successfully traversed list comes from a hotel in the
input list. -/
theorem traverseViews_mem {db : DB} : ∀ {l : List StoredDoc} {vs : List HotelView},
    traverseViews db l = some vs → ∀ v ∈ vs, ∃ x ∈ l, hotelView db x = some v := by
  intro l
  induction l with
  | nil =>
    intro vs h v hv
    simp only [traverseViews] at h
    cases h
    simp at hv
  | cons x xs ih =>
    intro vs h v hv
    simp only [traverseViews] at h
    cases hx : hotelView db x with
    | none => rw [hx] at h; cases h
    | some v0 =>
      rw [hx] at h
      cases ht : traverseViews db xs with
      | none => rw [ht] at h; cases h
      | some vs0 =>
        rw [ht] at h
        cases h
        rcases List.mem_cons.1 hv with h1 | h1
        · exact ⟨x, List.mem_cons_self x xs, h1 ▸ hx⟩
        · rcases ih ht v h1 with ⟨y, hy, hvy⟩
          exact ⟨y, List.mem_cons_of_mem x hy, hvy⟩

/-- Every hotel of a successfully traversed list contributes a view. -/
theorem mem_traverseViews {db : DB} : ∀ {l : List StoredDoc} {vs : List HotelView},
    traverseViews db l = some vs → ∀ x ∈ l, ∃ v ∈ vs, hotelView db x = some v := by
  intro l
  induction l with
  | nil =>
    intro vs h x hx
    simp at hx
  | cons y ys ih =>
    intro vs h x hx
    simp only [traverseViews] at h
    cases hy : hotelView db y with
    | none => rw [hy] at h; cases h
    | some v0 =>
      rw [hy] at h
      cases ht : traverseViews db ys with
      | none => rw [ht] at h; cases h
      | some vs0 =>
        rw [ht] at h
        cases h
        rcases List.mem_cons.1 hx with h1 | h1
        · exact ⟨v0, List.mem_cons_self v0 vs0, h1 ▸ hy⟩
        · rcases ih ht x h1 with ⟨v1, hv1, hxv1⟩
          exact ⟨v1, List.mem_cons_of_mem v0 hv1, hxv1⟩

/-- What `avgOf` guarantees: `none` exactly on an empty review list, and
otherwise an integer within one half of the arithmetic mean. -/
theorem avgOf_spec (rs : List Rat) :
    (rs = [] → avgOf rs = none) ∧
    ∀ a : Int, avgOf rs = some a → |(a : Rat) - rs.sum / (rs.length : Rat)| ≤ 1/2 := by
  constructor
  · intro he
    subst he
    simp [avgOf]
  · intro a ha
    rw [avgOf] at ha
    by_cases hlen : rs.length = 0
    · rw [if_pos hlen] at ha
      cases ha
    · rw [if_neg hlen] at ha
      have hae : pythonRound (rs.sum / (rs.length : Rat)) = a := Option.some.inj ha
      subst hae
      exact pythonRound_nearest (rs.sum / (rs.length : Rat))

/-- C1: every hotel read (`GET /hotels/(id)` and `GET /hotels`) reports an
`avg_rating` that is the arithmetic mean of the `rating` fields of the
reviews referencing the hotel, rounded to a nearest integer (within one
half of the mean), and `null` exactly when the hotel has no reviews. -/
theorem C1_hotel_read_avg_rating (db : DB) (hid : String) (h : StoredDoc) (rs : List Rat)
    (hv : isValidObjectId hid = true)
    (hfind : db.hotels.find? (fun x => decide (x.oid = objIdOf hid)) = some h)
    (hrs : ratingVals (hotelReviews db h.oid) = some rs) :
    (∃ v : HotelView,
      (HotelHandler.getById db hid).1 = Resp.ok 200 v ∧
      v.avg_rating = avgOf rs ∧
      (rs = [] → v.avg_rating = none) ∧
      ∀ a : Int, v.avg_rating = some a →
        |(a : Rat) - rs.sum / (rs.length : Rat)| ≤ 1/2) ∧
    ∀ (city name : Option String) (rating : Option Int) (L : HotelsList) (v : HotelView),
      (HotelHandler.getList db city name rating).1 = Resp.ok 200 L → v ∈ L.hotels →
      ∃ x ∈ db.hotels, hotelView db x = some v ∧ ∃ rs2 : List Rat,
        ratingVals (hotelReviews db x.oid) = some rs2 ∧
        v.avg_rating = avgOf rs2 ∧
        (rs2 = [] → v.avg_rating = none) ∧
        ∀ a : Int, v.avg_rating = some a →
          |(a : Rat) - rs2.sum / (rs2.length : Rat)| ≤ 1/2 := by
  constructor
  · refine ⟨⟨normalizeDoc h, (hotelReviews db h.oid).map normalizeDoc, avgOf rs⟩, ?_, rfl, ?_, ?_⟩
    · simp [HotelHandler.getById, hv, hfind, hotelView, hrs]
    · exact fun he => (avgOf_spec rs).1 he
    · exact (avgOf_spec rs).2
  · intro city name rating L v hok hmem
    simp only [HotelHandler.getList] at hok
    cases htv : traverseViews db (db.hotels.filter
        (fun h0 => fieldFilterOk "city" city h0 && fieldFilterOk "name" name h0)) with
    | none =>
      rw [htv] at hok
      cases hok
    | some views =>
      rw [htv] at hok
      have hvmem : v ∈ views := by
        cases rating with
        | none =>
          simp only at hok
          cases hok
          exact hmem
        | some rr =>
          simp only at hok
          cases hok
          exact List.mem_of_mem_filter hmem
      rcases traverseViews_mem htv v hvmem with ⟨x, hxsel, hxv⟩
      refine ⟨x, List.mem_of_mem_filter hxsel, hxv, ?_⟩
      rw [hotelView] at hxv
      cases hrs2 : ratingVals (hotelReviews db x.oid) with
      | none =>
        rw [hrs2] at hxv
        cases hxv
      | some rs2 =>
        rw [hrs2] at hxv
        have hveq : (⟨normalizeDoc x, (hotelReviews db x.oid).map normalizeDoc, avgOf rs2⟩ : HotelView) = v :=
          Option.some.inj hxv
        refine ⟨rs2, rfl, ?_, ?_, ?_⟩
        · rw [← hveq]
        · intro he
          rw [← hveq]
          exact (avgOf_spec rs2).1 he
        · intro a ha
          rw [← hveq] at ha
          exact (avgOf_spec rs2).2 a ha

/-- A concrete store for exercising C1: one hotel with reviews rated 3, 4
and 5. -/
def c1hid : String := "0123456789abcdef01234567"

/-- The stored hotel of the C1 example. -/
def c1hotel : StoredDoc := ⟨c1hid, [("name", Value.str "Colosseo"), ("city", Value.str "Roma")]⟩

/-- The C1 example store. -/
def c1db : DB :=
  ⟨[c1hotel],
   [⟨"aaaaaaaaaaaaaaaaaaaaaaa1", [("user", Value.str "a@b.it"), ("rating", Value.num 3),
      ("hotel_id", Value.oidv c1hid)]⟩,
    ⟨"aaaaaaaaaaaaaaaaaaaaaaa2", [("user", Value.str "c@d.it"), ("rating", Value.num 4),
      ("hotel_id", Value.oidv c1hid)]⟩,
    ⟨"aaaaaaaaaaaaaaaaaaaaaaa3", [("user", Value.str "e@f.it"), ("rating", Value.num 5),
      ("hotel_id", Value.oidv c1hid)]⟩]⟩

/-- Witness for C1: on the example store the hotel read succeeds and
reports `avg_rating = 4` for the ratings [3, 4, 5]. -/
theorem C1_witness :
    ∃ v : HotelView, (HotelHandler.getById c1db c1hid).1 = Resp.ok 200 v ∧
      v.avg_rating = some 4 := by
  obtain ⟨⟨v, hok, havg, _, _⟩, _⟩ :=
    C1_hotel_read_avg_rating c1db c1hid c1hotel [3, 4, 5] (by decide) (by decide) (by decide)
  refine ⟨v, hok, ?_⟩
  rw [havg]
  norm_num [avgOf, pythonRound, ratFloor_eq_floor]

/-- After `updoteFirst` rewrote the first document with the given id, a
document with that id can still be found. -/
theorem updateFirst_find_oid (oid : String) (data : Doc) :
    ∀ l : List StoredDoc, l.any (fun h => decide (h.oid = oid)) = true →
    ∃ h2, (updateFirst (fun h => decide (h.oid = oid)) data l).find?
      (fun h => decide (h.oid = oid)) = some h2 := by
  intro l
  induction l with
  | nil => intro hany; simp at hany
  | cons x xs ih =>
    intro hany
    rw [updateFirst]
    by_cases hx : x.oid = oid
    · refine ⟨⟨x.oid, applySet x.fields data⟩, ?_⟩
      simp [hx]
    · have htail : xs.any (fun h => decide (h.oid = oid)) = true := by
        simp only [List.any_cons, Bool.or_eq_true, decide_eq_true_eq] at hany
        rcases hany with h1 | h1
        · exact absurd h1 hx
        · exact h1
      rcases ih htail with ⟨h2, hh2⟩
      refine ⟨h2, ?_⟩
      simp [hx, hh2]

/-- C2: a successful `PUT /hotels/(id)` (well-formed id, parsed body,
valid optional email and phone, matching hotel) deletes every review
whose `hotel_id` references the hotel, whatever fields the payload
contains. -/
theorem C2_put_cascade (db : DB) (hid : String) (data : Doc)
    (hv : isValidObjectId hid = true)
    (he : checkOptStrField data "email" validate_email "Email non valida" = VCheck.ok)
    (hp : checkOptStrField data "phone" validate_phone "Telefono non valido" = VCheck.ok)
    (hex : db.hotels.any (fun h => decide (h.oid = objIdOf hid)) = true) :
    (∃ d : Doc, (HotelHandler.put db hid (some data)).1 = Resp.ok 200 d) ∧
    ∀ r ∈ (HotelHandler.put db hid (some data)).2.reviews,
      lookupF r.fields "hotel_id" ≠ some (Value.oidv (objIdOf hid)) := by
  obtain ⟨h2, hfind⟩ := updateFirst_find_oid (objIdOf hid) data db.hotels hex
  constructor
  · refine ⟨normalizeDoc h2, ?_⟩
    simp [HotelHandler.put, hv, he, hp, hex, hfind]
  · intro r hr
    simp only [HotelHandler.put, hv, if_true, he, hp, hex, hfind] at hr
    have hr2 : r ∈ db.reviews.filter
        (fun r0 => decide (lookupF r0.fields "hotel_id" ≠ some (Value.oidv (objIdOf hid)))) := by
      simpa using hr
    have := (List.mem_filter.1 hr2).2
    simpa using this

/-- The C2 example store: one hotel with one review. -/
def c2hid : String := "0123456789abcdef01234567"

/-- The C2 example store. -/
def c2db : DB :=
  ⟨[⟨c2hid, [("name", Value.str "Colosseo"), ("city", Value.str "Roma"),
      ("phone", Value.str "+390612345"), ("email", Value.str "x@y.it")]⟩],
   [⟨"bbbbbbbbbbbbbbbbbbbbbbb1", [("user", Value.str "a@b.it"), ("rating", Value.num 5),
      ("hotel_id", Value.oidv c2hid)]⟩]⟩

/-- Witness for C2: an update touching only an unrelated field still
deletes the hotel's only review. -/
theorem C2_witness :
    (∃ d : Doc, (HotelHandler.put c2db c2hid (some [("stars", Value.num 5)])).1 = Resp.ok 200 d) ∧
    ∀ r ∈ (HotelHandler.put c2db c2hid (some [("stars", Value.num 5)])).2.reviews,
      lookupF r.fields "hotel_id" ≠ some (Value.oidv (objIdOf c2hid)) :=
  C2_put_cascade c2db c2hid [("stars", Value.num 5)] (by decide) (by decide) (by decide) (by decide)

/-- The body shape of a review creation request: a valid user and a
numeric rating. -/
def ratingBody (u : String) (q : Rat) : Doc :=
  [("user", Value.str u), ("rating", Value.num q)]

/-- The non-integer rating nine halves. -/
def c3q : Rat := ⟨9, 2, by decide, by decide⟩

/-- The C3 example hotel id. -/
def c3hid : String := "0123456789abcdef01234567"

/-- The C3 example store: one hotel, no reviews. -/
def c3db : DB :=
  ⟨[⟨c3hid, [("name", Value.str "Colosseo"), ("city", Value.str "Roma")]⟩], []⟩

/-- The fresh review id the store assigns in the C3 example. -/
def c3rid : String := "cccccccccccccccccccccccc"

/-- Counterexample for C3 as stated: the rating nine halves is not an
integer and lies inside [1, 5]; the claim says any non-integer rating is
rejected with 400, but the service accepts it with 201 and inserts the
review. -/
theorem C3_counterexample :
    c3q.den ≠ 1 ∧ 1 ≤ c3q ∧ c3q ≤ 5 ∧
    (HotelReviewsHandler.post c3db c3hid (some (ratingBody "guest@mail.com" c3q)) c3rid).1
      = Resp.ok 201 (normalizeDoc ⟨c3rid,
          setField (ratingBody "guest@mail.com" c3q) "hotel_id" (Value.oidv (objIdOf c3hid))⟩) ∧
    (HotelReviewsHandler.post c3db c3hid (some (ratingBody "guest@mail.com" c3q)) c3rid).2.reviews.length
      = 1 := by
  refine ⟨by decide, by decide, by decide, by decide, by decide⟩

/-- C3 (amended): review creation validates the rating as a *number* in
[1, 5] — a numeric rating is accepted exactly when `1 ≤ rating ≤ 5`
(integrality is not enforced), and otherwise the request fails with 400
and the store is unchanged. -/
theorem C3_rating_range (db : DB) (hid u : String) (q : Rat) (newOid : String)
    (hv : isValidObjectId hid = true)
    (hex : db.hotels.any (fun h => decide (h.oid = objIdOf hid)) = true)
    (hu : validate_email u = true) :
    ((1 ≤ q ∧ q ≤ 5) →
      (HotelReviewsHandler.post db hid (some (ratingBody u q)) newOid).1
        = Resp.ok 201 (normalizeDoc ⟨newOid,
            setField (ratingBody u q) "hotel_id" (Value.oidv (objIdOf hid))⟩) ∧
      (HotelReviewsHandler.post db hid (some (ratingBody u q)) newOid).2.reviews
        = db.reviews ++ [⟨newOid, setField (ratingBody u q) "hotel_id" (Value.oidv (objIdOf hid))⟩]) ∧
    (¬(1 ≤ q ∧ q ≤ 5) →
      (HotelReviewsHandler.post db hid (some (ratingBody u q)) newOid)
        = (Resp.err 400 "Rating deve essere tra 1 e 5", db)) := by
  constructor
  · rintro ⟨h1, h5⟩
    constructor <;>
      simp [HotelReviewsHandler.post, hv, hex, ratingBody, lookupF, checkOptStrField,
        checkOptRating, ratingInRange, hu, h1, h5]
  · intro hneg
    have hnot : (decide (1 ≤ q) && decide (q ≤ 5)) = false := by
      by_cases h1 : 1 ≤ q
      · by_cases h5 : q ≤ 5
        · exact absurd ⟨h1, h5⟩ hneg
        · simp [h5]
      · simp [h1]
    simp [HotelReviewsHandler.post, hv, hex, ratingBody, lookupF, checkOptStrField,
      checkOptRating, ratingInRange, hu, hnot]

/-- Witness for C3 (amended), at the rejected rating 6: the request fails
with the 400 range error and the store is unchanged. -/
theorem C3_witness :
    ((1 ≤ (6 : Rat) ∧ (6 : Rat) ≤ 5) →
      (HotelReviewsHandler.post c3db c3hid (some (ratingBody "guest@mail.com" 6)) c3rid).1
        = Resp.ok 201 (normalizeDoc ⟨c3rid,
            setField (ratingBody "guest@mail.com" 6) "hotel_id" (Value.oidv (objIdOf c3hid))⟩) ∧
      (HotelReviewsHandler.post c3db c3hid (some (ratingBody "guest@mail.com" 6)) c3rid).2.reviews
        = c3db.reviews ++ [⟨c3rid,
            setField (ratingBody "guest@mail.com" 6) "hotel_id" (Value.oidv (objIdOf c3hid))⟩]) ∧
    (¬(1 ≤ (6 : Rat) ∧ (6 : Rat) ≤ 5) →
      (HotelReviewsHandler.post c3db c3hid (some (ratingBody "guest@mail.com" 6)) c3rid)
        = (Resp.err 400 "Rating deve essere tra 1 e 5", c3db)) :=
  C3_rating_range c3db c3hid "guest@mail.com" 6 c3rid (by decide) (by decide) (by decide)

/-! ### State preservation on validation failure -/

/-- `GET /hotels/(id)` never mutates the store. -/
theorem getById_state (db : DB) (hid : String) : (HotelHandler.getById db hid).2 = db := by
  simp only [HotelHandler.getById]
  repeat' split
  all_goals rfl

/-- `GET /hotels` never mutates the store. -/
theorem getList_state (db : DB) (city name : Option String) (rating : Option Int) :
    (HotelHandler.getList db city name rating).2 = db := by
  simp only [HotelHandler.getList]
  repeat' split
  all_goals rfl

/-- `GET /hotels/(id)/reviews/(rid)` never mutates the store. -/
theorem reviewsGetById_state (db : DB) (hid rid : String) :
    (HotelReviewsHandler.getById db hid rid).2 = db := by
  simp only [HotelReviewsHandler.getById]
  repeat' split
  all_goals rfl

/-- `GET /hotels/(id)/reviews` never mutates the store. -/
theorem reviewsGetList_state (db : DB) (hid : String) :
    (HotelReviewsHandler.getList db hid).2 = db := by
  simp only [HotelReviewsHandler.getList]
  repeat' split
  all_goals rfl

/-- `POST /hotels` leaves the store unchanged whenever it answers 400. -/
theorem hotelPost_400_state (db : DB) (body : Option Doc) (noid : String) :
    (HotelHandler.post db body noid).1.status = some 400 → (HotelHandler.post db body noid).2 = db := by
  simp only [HotelHandler.post]
  repeat' split
  all_goals first
  | (intro _; rfl)
  | (intro hst; simp [Resp.status] at hst)

/-- `PUT /hotels/(id)` leaves the store unchanged whenever it answers 400. -/
theorem hotelPut_400_state (db : DB) (hid : String) (body : Option Doc) :
    (HotelHandler.put db hid body).1.status = some 400 → (HotelHandler.put db hid body).2 = db := by
  simp only [HotelHandler.put]
  repeat' split
  all_goals first
  | (intro _; rfl)
  | (intro hst; simp [Resp.status] at hst)

/-- `DELETE /hotels/(id)` leaves the store unchanged whenever it answers
400. -/
theorem hotelDelete_400_state (db : DB) (hid : String) :
    (HotelHandler.delete db hid).1.status = some 400 → (HotelHandler.delete db hid).2 = db := by
  simp only [HotelHandler.delete]
  repeat' split
  all_goals first
  | (intro _; rfl)
  | (intro hst; simp [Resp.status] at hst)

/-- `POST /hotels/(id)/reviews` leaves the store unchanged whenever it
answers 400. -/
theorem reviewsPost_400_state (db : DB) (hid : String) (body : Option Doc) (noid : String) :
    (HotelReviewsHandler.post db hid body noid).1.status = some 400 →
    (HotelReviewsHandler.post db hid body noid).2 = db := by
  simp only [HotelReviewsHandler.post]
  repeat' split
  all_goals first
  | (intro _; rfl)
  | (intro hst; simp [Resp.status] at hst)

/-- `PUT /hotels/(id)/reviews/(rid)` leaves the store unchanged whenever
it answers 400. -/
theorem reviewsPut_400_state (db : DB) (hid rid : String) (body : Option Doc) :
    (HotelReviewsHandler.put db hid rid body).1.status = some 400 →
    (HotelReviewsHandler.put db hid rid body).2 = db := by
  simp only [HotelReviewsHandler.put]
  repeat' split
  all_goals first
  | (intro _; rfl)
  | (intro hst; simp [Resp.status] at hst)

/-- `DELETE /hotels/(id)/reviews/(rid)` leaves the store unchanged
whenever it answers 400. -/
theorem reviewsDelete_400_state (db : DB) (hid rid : String) :
    (HotelReviewsHandler.delete db hid rid).1.status = some 400 →
    (HotelReviewsHandler.delete db hid rid).2 = db := by
  simp only [HotelReviewsHandler.delete]
  repeat' split
  all_goals first
  | (intro _; rfl)
  | (intro hst; simp [Resp.status] at hst)

/-- C4: whenever any endpoint reports a validation failure (status 400 —
malformed id, unparsable body, missing field, invalid email / phone /
user / rating), the response is produced before any mutating store call:
both collections are exactly as before the request. -/
theorem C4_no_write_on_400 (db : DB) (hid rid noid : String) (body : Option Doc)
    (city name : Option String) (rating : Option Int) :
    ((HotelHandler.getById db hid).1.status = some 400 → (HotelHandler.getById db hid).2 = db) ∧
    ((HotelHandler.getList db city name rating).1.status = some 400 →
      (HotelHandler.getList db city name rating).2 = db) ∧
    ((HotelHandler.post db body noid).1.status = some 400 → (HotelHandler.post db body noid).2 = db) ∧
    ((HotelHandler.put db hid body).1.status = some 400 → (HotelHandler.put db hid body).2 = db) ∧
    ((HotelHandler.delete db hid).1.status = some 400 → (HotelHandler.delete db hid).2 = db) ∧
    ((HotelReviewsHandler.getById db hid rid).1.status = some 400 →
      (HotelReviewsHandler.getById db hid rid).2 = db) ∧
    ((HotelReviewsHandler.getList db hid).1.status = some 400 →
      (HotelReviewsHandler.getList db hid).2 = db) ∧
    ((HotelReviewsHandler.post db hid body noid).1.status = some 400 →
      (HotelReviewsHandler.post db hid body noid).2 = db) ∧
    ((HotelReviewsHandler.put db hid rid body).1.status = some 400 →
      (HotelReviewsHandler.put db hid rid body).2 = db) ∧
    ((HotelReviewsHandler.delete db hid rid).1.status = some 400 →
      (HotelReviewsHandler.delete db hid rid).2 = db) :=
  ⟨fun _ => getById_state db hid,
   fun _ => getList_state db city name rating,
   hotelPost_400_state db body noid,
   hotelPut_400_state db hid body,
   hotelDelete_400_state db hid,
   fun _ => reviewsGetById_state db hid rid,
   fun _ => reviewsGetList_state db hid,
   reviewsPost_400_state db hid body noid,
   reviewsPut_400_state db hid rid body,
   reviewsDelete_400_state db hid rid⟩

/-- Witness for C4: a hotel creation with an unparsable body answers 400
and leaves the empty store untouched. -/
theorem C4_witness :
    (HotelHandler.post ⟨[], []⟩ none "ffffffffffffffffffffffff").1.status = some 400 ∧
    (HotelHandler.post ⟨[], []⟩ none "ffffffffffffffffffffffff").2 = (⟨[], []⟩ : DB) :=
  ⟨by decide,
   (C4_no_write_on_400 ⟨[], []⟩ "x" "y" "ffffffffffffffffffffffff" none none none none).2.2.1
     (by decide)⟩

/-- When store ids are unique, deleting the first document with a given
id leaves no document with that id behind. -/
theorem eraseP_oid_find_none :
    ∀ (l : List StoredDoc) (oid : String), (l.map StoredDoc.oid).Nodup →
    (l.eraseP (fun h => decide (h.oid = oid))).find? (fun h => decide (h.oid = oid)) = none := by
  intro l
  induction l with
  | nil => intro oid _; simp [List.eraseP]
  | cons x xs ih =>
    intro oid hnd
    rw [List.map_cons, List.nodup_cons] at hnd
    by_cases hx : x.oid = oid
    · rw [List.eraseP_cons_of_pos (by simp [hx])]
      rw [List.find?_eq_none]
      intro y hy
      simp only [decide_eq_true_eq]
      intro hyo
      exact hnd.1 (by rw [← hx] at hyo; exact hyo ▸ List.mem_map_of_mem StoredDoc.oid hy)
    · rw [List.eraseP_cons_of_neg (by simp [hx])]
      rw [List.find?_cons_of_neg _ (by simp [hx])]
      exact ih oid hnd.2

/-- C5: `DELETE /hotels/(id)` on any well-formed id succeeds with the
deletion message (never 404, also when no hotel matches), removes the
hotel document, keeps exactly the reviews that did not reference the
hotel, and a subsequent fetch of any review under that hotel id answers
404. -/
theorem C5_hotel_delete (db : DB) (hid : String)
    (hv : isValidObjectId hid = true)
    (hnodup : (db.hotels.map StoredDoc.oid).Nodup) :
    (HotelHandler.delete db hid).1 = Resp.ok 200 "Hotel e recensioni eliminati" ∧
    (HotelHandler.delete db hid).2.hotels.find? (fun h => decide (h.oid = objIdOf hid)) = none ∧
    (∀ r, r ∈ (HotelHandler.delete db hid).2.reviews ↔
      r ∈ db.reviews ∧ lookupF r.fields "hotel_id" ≠ some (Value.oidv (objIdOf hid))) ∧
    ∀ rid, isValidObjectId rid = true →
      (HotelReviewsHandler.getById (HotelHandler.delete db hid).2 hid rid).1
        = Resp.err 404 "Recensione non trovata" := by
  refine ⟨by simp [HotelHandler.delete, hv], ?_, ?_, ?_⟩
  · simp only [HotelHandler.delete, hv, if_true]
    exact eraseP_oid_find_none db.hotels (objIdOf hid) hnodup
  · intro r
    simp only [HotelHandler.delete, hv, if_true]
    rw [List.mem_filter]
    simp
  · intro rid hvr
    simp only [HotelReviewsHandler.getById, hv, hvr, if_true]
    have hfind : ((HotelHandler.delete db hid).2.reviews.find?
        (HotelReviewsHandler.pairPred hid rid)) = none := by
      rw [List.find?_eq_none]
      intro r hr
      simp only [HotelHandler.delete, hv, if_true] at hr
      have := (List.mem_filter.1 hr).2
      simp only [decide_eq_true_eq] at this
      simp only [HotelReviewsHandler.pairPred, Bool.and_eq_true, decide_eq_true_eq]
      rintro ⟨-, habs⟩
      exact this habs
    rw [hfind]

/-- The C5 example store: one hotel, one review of it, one unrelated
review. -/
def c5db : DB :=
  ⟨[⟨"0123456789abcdef01234567", [("name", Value.str "Colosseo")]⟩],
   [⟨"bbbbbbbbbbbbbbbbbbbbbbb1",
      [("rating", Value.num 5), ("hotel_id", Value.oidv "0123456789abcdef01234567")]⟩,
    ⟨"bbbbbbbbbbbbbbbbbbbbbbb2",
      [("rating", Value.num 2), ("hotel_id", Value.oidv "dddddddddddddddddddddddd")]⟩]⟩

/-- Witness for C5 on the example store. -/
theorem C5_witness :
    (HotelHandler.delete c5db "0123456789abcdef01234567").1
      = Resp.ok 200 "Hotel e recensioni eliminati" ∧
    (HotelHandler.delete c5db "0123456789abcdef01234567").2.hotels.find?
      (fun h => decide (h.oid = objIdOf "0123456789abcdef01234567")) = none ∧
    (∀ r, r ∈ (HotelHandler.delete c5db "0123456789abcdef01234567").2.reviews ↔
      r ∈ c5db.reviews ∧
      lookupF r.fields "hotel_id" ≠ some (Value.oidv (objIdOf "0123456789abcdef01234567"))) ∧
    ∀ rid, isValidObjectId rid = true →
      (HotelReviewsHandler.getById (HotelHandler.delete c5db "0123456789abcdef01234567").2
        "0123456789abcdef01234567" rid).1 = Resp.err 404 "Recensione non trovata" :=
  C5_hotel_delete c5db "0123456789abcdef01234567" (by decide) (by decide)

/-- The review delete filter succeeds on some review exactly when a
review matches both the review id and the hotel id. -/
theorem pairPred_any (db : DB) (hid rid : String) :
    db.reviews.any (HotelReviewsHandler.pairPred hid rid) = true ↔
    ∃ r ∈ db.reviews, r.oid = objIdOf rid ∧
      lookupF r.fields "hotel_id" = some (Value.oidv (objIdOf hid)) := by
  rw [List.any_eq_true]
  constructor
  · rintro ⟨r, hr, hp⟩
    simp only [HotelReviewsHandler.pairPred, Bool.and_eq_true, decide_eq_true_eq] at hp
    exact ⟨r, hr, hp⟩
  · rintro ⟨r, hr, hp⟩
    refine ⟨r, hr, ?_⟩
    simp only [HotelReviewsHandler.pairPred, Bool.and_eq_true, decide_eq_true_eq]
    exact hp

/-- C6: `DELETE /hotels/(id)/reviews/(rid)` (well-formed ids) deletes the
first review matching the (review id, hotel id) pair and answers 404
exactly when no review matched that pair — review delete, unlike hotel
delete, is not idempotent. -/
theorem C6_review_delete_strict (db : DB) (hid rid : String)
    (hv1 : isValidObjectId hid = true) (hv2 : isValidObjectId rid = true) :
    ((HotelReviewsHandler.delete db hid rid).1.status = some 404 ↔
      ¬ ∃ r ∈ db.reviews, r.oid = objIdOf rid ∧
        lookupF r.fields "hotel_id" = some (Value.oidv (objIdOf hid))) ∧
    ((∃ r ∈ db.reviews, r.oid = objIdOf rid ∧
        lookupF r.fields "hotel_id" = some (Value.oidv (objIdOf hid))) →
      (HotelReviewsHandler.delete db hid rid).1 = Resp.ok 200 "Recensione eliminata" ∧
      (HotelReviewsHandler.delete db hid rid).2.reviews
        = db.reviews.eraseP (HotelReviewsHandler.pairPred hid rid)) ∧
    ((¬ ∃ r ∈ db.reviews, r.oid = objIdOf rid ∧
        lookupF r.fields "hotel_id" = some (Value.oidv (objIdOf hid))) →
      (HotelReviewsHandler.delete db hid rid) = (Resp.err 404 "Recensione non trovata", db)) := by
  by_cases hex : db.reviews.any (HotelReviewsHandler.pairPred hid rid) = true
  · have hexists := (pairPred_any db hid rid).1 hex
    refine ⟨?_, ?_, ?_⟩
    · simp only [HotelReviewsHandler.delete, hv1, hv2, hex, Bool.and_self, if_true,
        Resp.status]
      constructor
      · intro habs
        simp at habs
      · intro hn
        exact absurd hexists hn
    · intro _
      constructor <;> simp [HotelReviewsHandler.delete, hv1, hv2, hex]
    · intro habs
      exact absurd hexists habs
  · have hnone : ¬ ∃ r ∈ db.reviews, r.oid = objIdOf rid ∧
        lookupF r.fields "hotel_id" = some (Value.oidv (objIdOf hid)) := by
      intro hx
      exact hex ((pairPred_any db hid rid).2 hx)
    have hexf : db.reviews.any (HotelReviewsHandler.pairPred hid rid) = false :=
      Bool.eq_false_iff.2 (fun h => hex h)
    refine ⟨?_, ?_, ?_⟩
    · simp only [HotelReviewsHandler.delete, hv1, hv2, hexf, Bool.and_self, if_true,
        Bool.false_eq_true, if_false, Resp.status]
      simp [hnone]
    · intro hx
      exact absurd hx hnone
    · intro _
      simp [HotelReviewsHandler.delete, hv1, hv2, hexf]

/-- The C6 example store: a single review of the example hotel. -/
def c6db : DB :=
  ⟨[⟨"0123456789abcdef01234567", [("name", Value.str "Colosseo")]⟩],
   [⟨"bbbbbbbbbbbbbbbbbbbbbbb1",
      [("rating", Value.num 5), ("hotel_id", Value.oidv "0123456789abcdef01234567")]⟩]⟩

/-- Witness for C6 on the example store. -/
theorem C6_witness :
    (((HotelReviewsHandler.delete c6db "0123456789abcdef01234567" "bbbbbbbbbbbbbbbbbbbbbbb1").1.status
        = some 404 ↔
      ¬ ∃ r ∈ c6db.reviews, r.oid = objIdOf "bbbbbbbbbbbbbbbbbbbbbbb1" ∧
        lookupF r.fields "hotel_id" = some (Value.oidv (objIdOf "0123456789abcdef01234567"))) ∧
    ((∃ r ∈ c6db.reviews, r.oid = objIdOf "bbbbbbbbbbbbbbbbbbbbbbb1" ∧
        lookupF r.fields "hotel_id" = some (Value.oidv (objIdOf "0123456789abcdef01234567"))) →
      (HotelReviewsHandler.delete c6db "0123456789abcdef01234567" "bbbbbbbbbbbbbbbbbbbbbbb1").1
        = Resp.ok 200 "Recensione eliminata" ∧
      (HotelReviewsHandler.delete c6db "0123456789abcdef01234567" "bbbbbbbbbbbbbbbbbbbbbbb1").2.reviews
        = c6db.reviews.eraseP
            (HotelReviewsHandler.pairPred "0123456789abcdef01234567" "bbbbbbbbbbbbbbbbbbbbbbb1")) ∧
    ((¬ ∃ r ∈ c6db.reviews, r.oid = objIdOf "bbbbbbbbbbbbbbbbbbbbbbb1" ∧
        lookupF r.fields "hotel_id" = some (Value.oidv (objIdOf "0123456789abcdef01234567"))) →
      (HotelReviewsHandler.delete c6db "0123456789abcdef01234567" "bbbbbbbbbbbbbbbbbbbbbbb1")
        = (Resp.err 404 "Recensione non trovata", c6db))) :=
  C6_review_delete_strict c6db "0123456789abcdef01234567" "bbbbbbbbbbbbbbbbbbbbbbb1"
    (by decide) (by decide)

/-- Passing the city filter with a non-empty pattern is exactly
case-insensitive substring containment of the pattern in the stored
`city` string. -/
theorem fieldFilterOk_city_substr (c : String) (x : StoredDoc) (hne : c.isEmpty = false) :
    fieldFilterOk "city" (some c) x = true ↔
    ∃ s, lookupF x.fields "city" = some (Value.str s) ∧
      containsSub (c.data.map Char.toLower) (s.data.map Char.toLower) = true := by
  simp only [fieldFilterOk, hne, Bool.false_eq_true, if_false]
  cases hlf : lookupF x.fields "city" with
  | none => simp
  | some v =>
    cases v <;> simp [ciSubstrMatch]

/-- C7: `GET /hotels` returns exactly the hotels passing all supplied
filters — `city` and `name` as case-insensitive substring matches on the
respective fields, `rating` as an exact match on the computed
`avg_rating`, applied after aggregation. -/
theorem C7_list_filters (db : DB) (city name : Option String) (rating : Option Int)
    (views : List HotelView)
    (htv : traverseViews db (db.hotels.filter
      (fun h => fieldFilterOk "city" city h && fieldFilterOk "name" name h)) = some views) :
    ∃ L : HotelsList,
      (HotelHandler.getList db city name rating).1 = Resp.ok 200 L ∧
      L.count = L.hotels.length ∧
      (∀ v ∈ L.hotels,
        (∃ x ∈ db.hotels, hotelView db x = some v ∧
          fieldFilterOk "city" city x = true ∧ fieldFilterOk "name" name x = true) ∧
        ∀ rr, rating = some rr → v.avg_rating = some rr) ∧
      (∀ x ∈ db.hotels, fieldFilterOk "city" city x = true →
        fieldFilterOk "name" name x = true →
        ∀ v, hotelView db x = some v → (∀ rr, rating = some rr → v.avg_rating = some rr) →
          v ∈ L.hotels) ∧
      (∀ c x, city = some c → c.isEmpty = false →
        (fieldFilterOk "city" city x = true ↔
          ∃ s, lookupF x.fields "city" = some (Value.str s) ∧
            containsSub (c.data.map Char.toLower) (s.data.map Char.toLower) = true)) := by
  have hchar : ∀ c x, city = some c → c.isEmpty = false →
      (fieldFilterOk "city" city x = true ↔
        ∃ s, lookupF x.fields "city" = some (Value.str s) ∧
          containsSub (c.data.map Char.toLower) (s.data.map Char.toLower) = true) := by
    intro c x hc hne
    subst hc
    exact fieldFilterOk_city_substr c x hne
  cases rating with
  | none =>
    refine ⟨⟨views.length, views⟩, ?_, rfl, ?_, ?_, hchar⟩
    · simp only [HotelHandler.getList, htv]
    · intro v hv
      rcases traverseViews_mem htv v hv with ⟨x, hxf, hxv⟩
      have hxm := List.mem_filter.1 hxf
      have hsplit := hxm.2
      rw [Bool.and_eq_true] at hsplit
      exact ⟨⟨x, hxm.1, hxv, hsplit.1, hsplit.2⟩, fun rr hrr => by cases hrr⟩
    · intro x hx hcity hname v hxv _
      have hxf : x ∈ db.hotels.filter
          (fun h => fieldFilterOk "city" city h && fieldFilterOk "name" name h) :=
        List.mem_filter.2 ⟨hx, by rw [hcity, hname]; rfl⟩
      rcases mem_traverseViews htv x hxf with ⟨v2, hv2, hxv2⟩
      rw [hxv] at hxv2
      cases Option.some.inj hxv2
      exact hv2
  | some rr =>
    refine ⟨⟨(views.filter (fun v => decide (v.avg_rating = some rr))).length,
      views.filter (fun v => decide (v.avg_rating = some rr))⟩, ?_, rfl, ?_, ?_, hchar⟩
    · simp only [HotelHandler.getList, htv]
    · intro v hv
      have hvm := List.mem_filter.1 hv
      rcases traverseViews_mem htv v hvm.1 with ⟨x, hxf, hxv⟩
      have hxm := List.mem_filter.1 hxf
      have hsplit := hxm.2
      rw [Bool.and_eq_true] at hsplit
      refine ⟨⟨x, hxm.1, hxv, hsplit.1, hsplit.2⟩, ?_⟩
      intro rr2 hrr2
      have := hvm.2
      simp only [decide_eq_true_eq] at this
      cases hrr2
      exact this
    · intro x hx hcity hname v hxv havg
      have hxf : x ∈ db.hotels.filter
          (fun h => fieldFilterOk "city" city h && fieldFilterOk "name" name h) :=
        List.mem_filter.2 ⟨hx, by rw [hcity, hname]; rfl⟩
      rcases mem_traverseViews htv x hxf with ⟨v2, hv2, hxv2⟩
      rw [hxv] at hxv2
      cases Option.some.inj hxv2
      exact List.mem_filter.2 ⟨hv2, by simp [havg rr rfl]⟩

/-- The C7 example store: a hotel in ROME and one in Paris, no reviews. -/
def c7db : DB :=
  ⟨[⟨"0123456789abcdef01234567", [("name", Value.str "Colosseo"), ("city", Value.str "ROME centre")]⟩,
    ⟨"89abcdef0123456789abcdef", [("name", Value.str "Tour"), ("city", Value.str "Paris")]⟩],
   []⟩

/-- The views the C7 example produces for the filter `city=Rome`: only
the ROME hotel. -/
def c7views : List HotelView :=
  [⟨[("name", Value.str "Colosseo"), ("city", Value.str "ROME centre"),
     ("id", Value.str "0123456789abcdef01234567")], [], none⟩]

/-- Witness for C7: filtering by `city=Rome` lists exactly hotels whose
city contains "rome" case-insensitively — here the ROME hotel and not the
Paris one. -/
theorem C7_witness :
    ∃ L : HotelsList, (HotelHandler.getList c7db (some "Rome") none none).1 = Resp.ok 200 L ∧
      ∀ v ∈ L.hotels, ∃ x ∈ c7db.hotels,
        hotelView c7db x = some v ∧ fieldFilterOk "city" (some "Rome") x = true := by
  obtain ⟨L, hok, -, hfwd, -, -⟩ :=
    C7_list_filters c7db (some "Rome") none none c7views (by decide)
  refine ⟨L, hok, fun v hv => ?_⟩
  obtain ⟨⟨x, hx, hview, hcity, -⟩, -⟩ := hfwd v hv
  exact ⟨x, hx, hview, hcity⟩

/-- C8: every review operation addressed by review id — fetch, update,
delete — matches on the (review id, hotel id) pair: when every review
with the given review id references a different hotel than the path
hotel (even though such a review exists), all three answer 404 and leave
the store unchanged. -/
theorem C8_pair_scoping (db : DB) (hid rid : String) (data : Doc)
    (hv1 : isValidObjectId hid = true) (hv2 : isValidObjectId rid = true)
    (hex : ∃ r ∈ db.reviews, r.oid = objIdOf rid)
    (hmis : ∀ r ∈ db.reviews, r.oid = objIdOf rid →
      lookupF r.fields "hotel_id" ≠ some (Value.oidv (objIdOf hid)))
    (hu : checkOptStrField data "user" validate_email "Email non valida" = VCheck.ok)
    (hr : checkOptRating data "Rating non valido" = VCheck.ok) :
    HotelReviewsHandler.getById db hid rid = (Resp.err 404 "Recensione non trovata", db) ∧
    HotelReviewsHandler.put db hid rid (some data) = (Resp.err 404 "Recensione non trovata", db) ∧
    HotelReviewsHandler.delete db hid rid = (Resp.err 404 "Recensione non trovata", db) := by
  have hnone : db.reviews.find? (HotelReviewsHandler.pairPred hid rid) = none := by
    rw [List.find?_eq_none]
    intro r hmem
    simp only [HotelReviewsHandler.pairPred, Bool.and_eq_true, decide_eq_true_eq]
    rintro ⟨ho, hh⟩
    exact hmis r hmem ho hh
  have hanyf : db.reviews.any (HotelReviewsHandler.pairPred hid rid) = false := by
    rw [Bool.eq_false_iff]
    intro hany
    rcases List.any_eq_true.1 hany with ⟨r, hmem, hp⟩
    simp only [HotelReviewsHandler.pairPred, Bool.and_eq_true, decide_eq_true_eq] at hp
    exact hmis r hmem hp.1 hp.2
  refine ⟨?_, ?_, ?_⟩
  · simp [HotelReviewsHandler.getById, hv1, hv2, hnone]
  · simp [HotelReviewsHandler.put, hv1, hv2, hu, hr, hanyf]
  · simp [HotelReviewsHandler.delete, hv1, hv2, hanyf]

/-- The C8 example store: the review exists but belongs to another
hotel. -/
def c8db : DB :=
  ⟨[⟨"ffffffffffffffffffffffff", [("name", Value.str "Altro")]⟩],
   [⟨"bbbbbbbbbbbbbbbbbbbbbbb1",
      [("rating", Value.num 5), ("hotel_id", Value.oidv "0123456789abcdef01234567")]⟩]⟩

/-- Witness for C8: fetching, updating and deleting the existing review
under the wrong hotel id all answer 404 with the store unchanged. -/
theorem C8_witness :
    HotelReviewsHandler.getById c8db "ffffffffffffffffffffffff" "bbbbbbbbbbbbbbbbbbbbbbb1"
      = (Resp.err 404 "Recensione non trovata", c8db) ∧
    HotelReviewsHandler.put c8db "ffffffffffffffffffffffff" "bbbbbbbbbbbbbbbbbbbbbbb1" (some [])
      = (Resp.err 404 "Recensione non trovata", c8db) ∧
    HotelReviewsHandler.delete c8db "ffffffffffffffffffffffff" "bbbbbbbbbbbbbbbbbbbbbbb1"
      = (Resp.err 404 "Recensione non trovata", c8db) :=
  C8_pair_scoping c8db "ffffffffffffffffffffffff" "bbbbbbbbbbbbbbbbbbbbbbb1" []
    (by decide) (by decide) (by decide) (by decide) (by decide) (by decide)

/-- C9: a path id that is not a well-formed 24-hex identifier makes every
handler answer 400 with the store untouched — never 404 — while a
well-formed hotel id matching nothing makes the fetch answer 404. -/
theorem C9_malformed_id (db : DB) (pid rid noid : String) (body : Option Doc)
    (hbad : isValidObjectId pid = false) :
    HotelHandler.getById db pid = (Resp.err 400 "ID hotel non valido", db) ∧
    HotelHandler.put db pid body = (Resp.err 400 "ID non valido", db) ∧
    HotelHandler.delete db pid = (Resp.err 400 "ID non valido", db) ∧
    HotelReviewsHandler.getList db pid = (Resp.err 400 "Hotel ID non valido", db) ∧
    HotelReviewsHandler.getById db pid rid = (Resp.err 400 "Hotel ID non valido", db) ∧
    HotelReviewsHandler.post db pid body noid = (Resp.err 400 "Hotel ID non valido", db) ∧
    HotelReviewsHandler.put db pid rid body = (Resp.err 400 "ID non valido", db) ∧
    HotelReviewsHandler.delete db pid rid = (Resp.err 400 "ID non valido", db) ∧
    (∀ hid, isValidObjectId hid = true →
      HotelReviewsHandler.getById db hid pid = (Resp.err 400 "Review ID non valido", db)) ∧
    (∀ hid, isValidObjectId hid = true →
      db.hotels.find? (fun h => decide (h.oid = objIdOf hid)) = none →
      (HotelHandler.getById db hid).1 = Resp.err 404 "Hotel non trovato") := by
  refine ⟨?_, ?_, ?_, ?_, ?_, ?_, ?_, ?_, ?_, ?_⟩
  · simp [HotelHandler.getById, hbad]
  · simp [HotelHandler.put, hbad]
  · simp [HotelHandler.delete, hbad]
  · simp [HotelReviewsHandler.getList, hbad]
  · simp [HotelReviewsHandler.getById, hbad]
  · simp [HotelReviewsHandler.post, hbad]
  · simp [HotelReviewsHandler.put, hbad]
  · simp [HotelReviewsHandler.delete, hbad]
  · intro hid hgood
    simp [HotelReviewsHandler.getById, hgood, hbad]
  · intro hid hgood hnone
    simp [HotelHandler.getById, hgood, hnone]

/-- Witness for C9 on the empty store with the malformed id "hotel-42". -/
theorem C9_witness :
    HotelHandler.getById (⟨[], []⟩ : DB) "hotel-42"
      = (Resp.err 400 "ID hotel non valido", (⟨[], []⟩ : DB)) ∧
    HotelHandler.put (⟨[], []⟩ : DB) "hotel-42" none
      = (Resp.err 400 "ID non valido", (⟨[], []⟩ : DB)) ∧
    HotelHandler.delete (⟨[], []⟩ : DB) "hotel-42"
      = (Resp.err 400 "ID non valido", (⟨[], []⟩ : DB)) ∧
    HotelReviewsHandler.getList (⟨[], []⟩ : DB) "hotel-42"
      = (Resp.err 400 "Hotel ID non valido", (⟨[], []⟩ : DB)) ∧
    HotelReviewsHandler.getById (⟨[], []⟩ : DB) "hotel-42" "bbbbbbbbbbbbbbbbbbbbbbb1"
      = (Resp.err 400 "Hotel ID non valido", (⟨[], []⟩ : DB)) ∧
    HotelReviewsHandler.post (⟨[], []⟩ : DB) "hotel-42" none "eeeeeeeeeeeeeeeeeeeeeeee"
      = (Resp.err 400 "Hotel ID non valido", (⟨[], []⟩ : DB)) ∧
    HotelReviewsHandler.put (⟨[], []⟩ : DB) "hotel-42" "bbbbbbbbbbbbbbbbbbbbbbb1" none
      = (Resp.err 400 "ID non valido", (⟨[], []⟩ : DB)) ∧
    HotelReviewsHandler.delete (⟨[], []⟩ : DB) "hotel-42" "bbbbbbbbbbbbbbbbbbbbbbb1"
      = (Resp.err 400 "ID non valido", (⟨[], []⟩ : DB)) ∧
    (∀ hid, isValidObjectId hid = true →
      HotelReviewsHandler.getById (⟨[], []⟩ : DB) hid "hotel-42"
        = (Resp.err 400 "Review ID non valido", (⟨[], []⟩ : DB))) ∧
    (∀ hid, isValidObjectId hid = true →
      (⟨[], []⟩ : DB).hotels.find? (fun h => decide (h.oid = objIdOf hid)) = none →
      (HotelHandler.getById (⟨[], []⟩ : DB) hid).1 = Resp.err 404 "Hotel non trovato") :=
  C9_malformed_id (⟨[], []⟩ : DB) "hotel-42" "bbbbbbbbbbbbbbbbbbbbbbb1"
    "eeeeeeeeeeeeeeeeeeeeeeee" none (by decide)

/-- C10: when `PUT /hotels/(id)` fails with 404 because no hotel matched
the well-formed id, nothing is written: in particular the reviews
collection — the cascade target — is exactly as before. -/
theorem C10_put_notfound_state (db : DB) (hid : String) (data : Doc)
    (hv : isValidObjectId hid = true)
    (he : checkOptStrField data "email" validate_email "Email non valida" = VCheck.ok)
    (hp : checkOptStrField data "phone" validate_phone "Telefono non valido" = VCheck.ok)
    (habs : db.hotels.any (fun h => decide (h.oid = objIdOf hid)) = false) :
    HotelHandler.put db hid (some data) = (Resp.err 404 "Hotel non trovato", db) := by
  simp [HotelHandler.put, hv, he, hp, habs]

/-- The C10 example store: no hotels, one review that a cascading delete
would erase. -/
def c10db : DB :=
  ⟨[],
   [⟨"bbbbbbbbbbbbbbbbbbbbbbb1",
      [("rating", Value.num 5), ("hotel_id", Value.oidv "0123456789abcdef01234567")]⟩]⟩

/-- Witness for C10: the not-found update answers 404 and the review
survives. -/
theorem C10_witness :
    HotelHandler.put c10db "0123456789abcdef01234567" (some [("name", Value.str "Nuovo")])
      = (Resp.err 404 "Hotel non trovato", c10db) :=
  C10_put_notfound_state c10db "0123456789abcdef01234567" [("name", Value.str "Nuovo")]
    (by decide) (by decide) (by decide) (by decide)
